import Mathlib

/-!
Shallow embedding of `src/space4k.py`, a single-screen fixed-formation
shooter.  Positions are pygame rects modelled with integer coordinates;
times are the millisecond counter returned by `pygame.time.get_ticks`,
modelled as `Nat`.  The per-frame gameplay pipeline of `main_game` is
embedded as a composition of pure state-transition functions, one per
phase of the tick, in the order the source executes them.
-/

namespace Space4k

/-! ### Constants (source lines 6-41) -/

def SCREEN_WIDTH : Int := 800
def SCREEN_HEIGHT : Int := 600
def PLAYER_WIDTH : Int := 50
def PLAYER_HEIGHT : Int := 20
def PLAYER_SPEED : Int := 4
def PLAYER_LIVES : Int := 3
def BULLET_WIDTH : Int := 5
def BULLET_HEIGHT : Int := 15
def BULLET_SPEED : Int := 6
def ENEMY_COLS : Nat := 10
def ENEMY_ROWS : Nat := 5
def ENEMY_SPACING_X : Int := 60
def ENEMY_SPACING_Y : Int := 40
def ENEMY_WIDTH : Int := 40
def ENEMY_HEIGHT : Int := 20
def ENEMY_MOVE_SPEED_X : Int := 1
def ENEMY_MOVE_DOWN_STEP : Int := 10
def ENEMY_MOVE_INTERVAL : Nat := 500

/-! ### Rects (pygame.Rect, integer coordinates) -/

structure Rect where
  x : Int
  y : Int
  w : Int
  h : Int
deriving DecidableEq

def Rect.left (r : Rect) : Int := r.x
def Rect.right (r : Rect) : Int := r.x + r.w
def Rect.top (r : Rect) : Int := r.y
def Rect.bottom (r : Rect) : Int := r.y + r.h
def Rect.centerx (r : Rect) : Int := r.x + r.w / 2

/-- Overlap test of `pygame.Rect.colliderect`: strict inequalities, so
rects that merely touch do not collide. -/
def collideRect (a b : Rect) : Bool :=
  decide (b.x < a.x + a.w) && decide (a.x < b.x + b.w) &&
  decide (b.y < a.y + a.h) && decide (a.y < b.y + b.h)

/-! ### Cues (SoundEngine.play names) -/

inductive Cue where
  | player_shoot
  | enemy_shoot
  | enemy_destroyed
  | player_hit
deriving DecidableEq

/-! ### Bullet (source lines 168-186) -/

structure Bullet where
  rect : Rect
  speed_y : Int
deriving DecidableEq

/-- Constructor `Bullet.__init__(x, y, direction, color)`: the rect is
centred horizontally on `x`; for direction `-1` (player bullet) the
bottom sits at `y`, for direction `1` (enemy bullet) the top sits at `y`;
the colour is purely visual and not modelled. -/
def Bullet.init (x y direction : Int) : Bullet :=
  { rect :=
      { x := x - BULLET_WIDTH / 2
      , y := if direction = -1 then y - BULLET_HEIGHT else y
      , w := BULLET_WIDTH
      , h := BULLET_HEIGHT }
  , speed_y := BULLET_SPEED * direction }

/-- Per-tick `Bullet.update`: move by `speed_y`, then self-kill when the
bottom is above the screen or the top is below it.  `none` models the
sprite having been killed. -/
def Bullet.update (b : Bullet) : Option Bullet :=
  let r : Rect := { b.rect with y := b.rect.y + b.speed_y }
  if r.bottom < 0 ∨ r.top > SCREEN_HEIGHT then none
  else some { b with rect := r }

/-! ### Player (source lines 97-135) -/

structure Player where
  rect : Rect
  speed_x : Int
  lives : Int
  shoot_delay : Nat
  last_shot_time : Nat
deriving DecidableEq

/-- Constructor `Player.__init__`, called with the current tick count
`now` for `pygame.time.get_ticks()`. -/
def Player.init (now : Nat) : Player :=
  { rect :=
      { x := (SCREEN_WIDTH - PLAYER_WIDTH) / 2
      , y := SCREEN_HEIGHT - PLAYER_HEIGHT - 20
      , w := PLAYER_WIDTH
      , h := PLAYER_HEIGHT }
  , speed_x := 0
  , lives := PLAYER_LIVES
  , shoot_delay := 250
  , last_shot_time := now }

/-- Per-tick `Player.update`: velocity from held keys (right overrides
left, as the source checks left first and right second), integrate, then
clamp to the horizontal bounds of the screen. -/
def Player.update (p : Player) (leftKey rightKey : Bool) : Player :=
  let sx : Int := if rightKey then PLAYER_SPEED else if leftKey then -PLAYER_SPEED else 0
  let x0 := p.rect.x + sx
  let x1 := if x0 < 0 then 0 else x0
  let x2 := if x1 + p.rect.w > SCREEN_WIDTH then SCREEN_WIDTH - p.rect.w else x1
  { p with speed_x := sx, rect := { p.rect with x := x2 } }

structure ShootResult where
  player : Player
  bullet : Option Bullet
  cues : List Cue
deriving DecidableEq

/-- Rate-limited shooting, `Player.shoot`: spawn a bullet only when strictly more than
`shoot_delay` milliseconds elapsed since `last_shot_time`; on success
reset the timer to `now` and fire the `player_shoot` cue, otherwise do
nothing at all. -/
def Player.shoot (p : Player) (now : Nat) : ShootResult :=
  if now - p.last_shot_time > p.shoot_delay then
    { player := { p with last_shot_time := now }
    , bullet := some (Bullet.init p.rect.centerx p.rect.top (-1))
    , cues := [Cue.player_shoot] }
  else
    { player := p, bullet := none, cues := [] }

/-! ### Enemy (source lines 137-166) -/

structure Enemy where
  rect : Rect
  enemy_type : Nat
deriving DecidableEq

def Enemy.init (x y : Int) (t : Nat) : Enemy :=
  { rect := { x := x, y := y, w := ENEMY_WIDTH, h := ENEMY_HEIGHT }, enemy_type := t }

/-- Enemy shooting, `Enemy.shoot`: spawns a downward bullet from the bottom centre of the enemy. -/
def Enemy.shootBullet (e : Enemy) : Bullet :=
  Bullet.init e.rect.centerx e.rect.bottom 1

/-! ### create_enemies (source lines 190-203) -/

def start_x : Int :=
  (SCREEN_WIDTH - ((ENEMY_COLS : Int) * ENEMY_SPACING_X)) / 2
    + ENEMY_SPACING_X / 2 - ENEMY_WIDTH / 2

def start_y : Int := 50

/-- The full `ENEMY_ROWS × ENEMY_COLS` grid, row-major as the nested
loops of the source create it; `enemy_type` is the row index. -/
def create_enemies : List Enemy :=
  (List.range ENEMY_ROWS).flatMap fun row =>
    (List.range ENEMY_COLS).map fun col =>
      Enemy.init (start_x + (col : Int) * ENEMY_SPACING_X)
        (start_y + (row : Int) * ENEMY_SPACING_Y) row

/-! ### Game state (locals of main_game, source lines 253-377) -/

inductive Phase where
  | playing
  | game_over
  | win
deriving DecidableEq

structure GameState where
  player : Player
  playerAlive : Bool
  enemies : List Enemy
  playerBullets : List Bullet
  enemyBullets : List Bullet
  score : Int
  enemy_current_move_speed_x : Int
  move_enemies_down : Bool
  last_enemy_move_time : Nat
  game_state : Phase
deriving DecidableEq

/-- Polled input for one tick: held movement keys and the shoot keydown. -/
structure Input where
  leftKey : Bool
  rightKey : Bool
  shootKey : Bool
deriving DecidableEq

/-- Initialisation of one playthrough, the code of `main_game` before the
loop (source lines 253-280), with `now` for `pygame.time.get_ticks()`. -/
def init_game (now : Nat) : GameState :=
  { player := Player.init now
  , playerAlive := true
  , enemies := create_enemies
  , playerBullets := []
  , enemyBullets := []
  , score := 0
  , enemy_current_move_speed_x := ENEMY_MOVE_SPEED_X
  , move_enemies_down := false
  , last_enemy_move_time := now
  , game_state := Phase.playing }

/-- Pressing R on a terminal screen makes `main_game` return `True`, and
the `while main_game():` driver then runs `main_game` afresh: a restart
is exactly a new `init_game` at the current time. -/
def restart (now : Nat) : GameState := init_game now

/-! ### The tick pipeline while Playing, in source order -/

/-- Event handling (source lines 286-297): while playing, a shoot
keydown calls `player.shoot`, whose bullet joins the player-bullet
group. -/
def eventPhase (s : GameState) (now : Nat) (inp : Input) : GameState :=
  if inp.shootKey then
    let r := s.player.shoot now
    { s with player := r.player
           , playerBullets := s.playerBullets ++ r.bullet.toList }
  else s

/-- Sprite updates, `all_sprites.update()` (source line 309): the player integrates its
input-driven movement and every bullet moves and self-kills off-screen;
`Enemy.update` is the sprite no-op. -/
def updatePhase (s : GameState) (inp : Input) : GameState :=
  { s with player := s.player.update inp.leftKey inp.rightKey
         , playerBullets := s.playerBullets.filterMap Bullet.update
         , enemyBullets := s.enemyBullets.filterMap Bullet.update }

/-- The formation after the horizontal move of one step (the first loop
of the step, `enemy.rect.x += enemy_current_move_speed_x`). -/
def movedEnemies (s : GameState) : List Enemy :=
  s.enemies.map fun e =>
    { e with rect := { e.rect with x := e.rect.x + s.enemy_current_move_speed_x } }

/-- Does some enemy stick out past a side of the screen after the move? -/
def wallHit (s : GameState) : Bool :=
  (movedEnemies s).any fun e =>
    decide (e.rect.right > SCREEN_WIDTH) || decide (e.rect.left < 0)

/-- The formation after the descent of the same step
(`enemy.rect.y += ENEMY_MOVE_DOWN_STEP`). -/
def droppedEnemies (s : GameState) : List Enemy :=
  (movedEnemies s).map fun e =>
    { e with rect := { e.rect with y := e.rect.y + ENEMY_MOVE_DOWN_STEP } }

/-- Does the bottom of some enemy reach or pass the top of the player in the
descent? -/
def reachedPlayer (s : GameState) : Bool :=
  (droppedEnemies s).any fun e => decide (e.rect.bottom ≥ s.player.rect.top)

/-- Enemy movement logic (source lines 311-334): when the formation is
nonempty and at least `ENEMY_MOVE_INTERVAL` ms elapsed since the last
step, move every enemy horizontally by the current step delta; if any
enemy then sticks out past a side of the screen, flip the stored delta
and mark a descent; a marked descent drops every enemy by
`ENEMY_MOVE_DOWN_STEP` in this same step and any enemy whose bottom then
reaches the top of the player zeroes the lives and forces game over. -/
def formationPhase (s : GameState) (now : Nat) : GameState :=
  if s.enemies.isEmpty then s
  else if now - s.last_enemy_move_time ≥ ENEMY_MOVE_INTERVAL then
    let speed' := if wallHit s then -s.enemy_current_move_speed_x
                  else s.enemy_current_move_speed_x
    if wallHit s || s.move_enemies_down then
      { s with enemies := droppedEnemies s
             , enemy_current_move_speed_x := speed'
             , move_enemies_down := false
             , last_enemy_move_time := now
             , player := if reachedPlayer s then { s.player with lives := 0 } else s.player
             , game_state := if reachedPlayer s then Phase.game_over else s.game_state }
    else
      { s with enemies := movedEnemies s
             , enemy_current_move_speed_x := speed'
             , last_enemy_move_time := now }
  else s

/-- Enemy shooting (source lines 336-339): each enemy fires with
probability `ENEMY_SHOOT_CHANCE`; the random draws are abstracted into
the decision oracle `dec`, indexed by the position of the enemy in the
group. -/
def enemyShootPhase (s : GameState) (dec : Nat → Bool) : GameState :=
  let newBullets := (s.enemies.enum.filter fun p => dec p.1).map fun p =>
    p.2.shootBullet
  { s with enemyBullets := s.enemyBullets ++ newBullets }

structure GCResult where
  survivors : List Enemy
  bullets : List Bullet
  kills : Nat
deriving DecidableEq

/-- Semantics of `pygame.sprite.groupcollide(enemies_group, player_bullets, True, True)`:
enemies are processed in group order; for each, every bullet currently
colliding with it is killed, and if there was at least one the enemy is
killed too. -/
def groupcollide : List Enemy → List Bullet → GCResult
  | [], bs => { survivors := [], bullets := bs, kills := 0 }
  | e :: es, bs =>
    let hit := bs.filter fun b => collideRect e.rect b.rect
    let rest := bs.filter fun b => !collideRect e.rect b.rect
    if hit.isEmpty then
      let r := groupcollide es bs
      { r with survivors := e :: r.survivors }
    else
      let r := groupcollide es rest
      { r with kills := r.kills + 1 }

/-- Player bullets hit enemies (source lines 341-347): run the group
collision and add 100 points per destroyed enemy. -/
def collisionPass1 (s : GameState) : GameState :=
  let r := groupcollide s.enemies s.playerBullets
  { s with enemies := r.survivors
         , playerBullets := r.bullets
         , score := s.score + 100 * (r.kills : Int) }

/-- The body of the per-hit loop of source lines 351-358, iterated once
per colliding enemy bullet: decrement lives, and when they drop to 0 or
below switch to game over and kill the player sprite. -/
def applyHits : Int → Phase → Bool → Nat → Int × Phase × Bool
  | lives, phase, alive, 0 => (lives, phase, alive)
  | lives, phase, alive, Nat.succ k =>
    let lives' := lives - 1
    if lives' ≤ 0 then applyHits lives' Phase.game_over false k
    else applyHits lives' phase alive k

/-- Enemy bullets hit player (source lines 349-358):
`pygame.sprite.spritecollide(player, enemy_bullets, True)` kills every
enemy bullet overlapping the player, then the loop decrements one life
per hit. -/
def collisionPass2 (s : GameState) : GameState :=
  let hit := s.enemyBullets.filter fun b => collideRect s.player.rect b.rect
  let rest := s.enemyBullets.filter fun b => !collideRect s.player.rect b.rect
  let r := applyHits s.player.lives s.game_state s.playerAlive hit.length
  { s with player := { s.player with lives := r.1 }
         , game_state := r.2.1
         , playerAlive := r.2.2
         , enemyBullets := rest }

/-- Win condition (source lines 360-363): only an empty formation in the
Playing phase wins. -/
def winCheck (s : GameState) : GameState :=
  if s.enemies.isEmpty ∧ s.game_state = Phase.playing then
    { s with game_state := Phase.win }
  else s

/-- One iteration of the main loop in the Playing phase, in source
order: events, sprite updates, formation step, enemy shooting, the two
collision passes, then the win check.  In a terminal phase the loop body
does none of this (it `continue`s to the terminal screens), so the state
is unchanged. -/
def tick (s : GameState) (now : Nat) (inp : Input) (dec : Nat → Bool) : GameState :=
  if s.game_state = Phase.playing then
    winCheck (collisionPass2 (collisionPass1 (enemyShootPhase
      (formationPhase (updatePhase (eventPhase s now inp) inp) now) dec)))
  else s

/-! ### Concrete scenario states used by witnesses and counterexamples -/

def idleInput : Input := { leftKey := false, rightKey := false, shootKey := false }

def noShots : Nat → Bool := fun _ => false

/-- Playing state with 1 life and two enemy bullets that will overlap
the player after the bullet update of this tick. -/
def hitState : GameState :=
  { init_game 0 with
      player := { Player.init 0 with lives := 1 }
    , enemyBullets :=
        [ { rect := { x := 380, y := 544, w := 5, h := 15 }, speed_y := 6 }
        , { rect := { x := 390, y := 544, w := 5, h := 15 }, speed_y := 6 } ] }

/-- Playing state with 1 life and one enemy bullet already overlapping
the player. -/
def hitNowState : GameState :=
  { init_game 0 with
      player := { Player.init 0 with lives := 1 }
    , enemyBullets := [ { rect := { x := 380, y := 550, w := 5, h := 15 }, speed_y := 6 } ] }

def e1w : Enemy := Enemy.init 100 100 0

def e2w : Enemy := Enemy.init 105 100 1

def b2w : Bullet := { rect := { x := 110, y := 105, w := 5, h := 15 }, speed_y := -6 }

/-- Formation one step short of the right wall. -/
def wallState : GameState :=
  { init_game 0 with enemies := [Enemy.init 760 100 0, Enemy.init 300 100 1] }

/-- Formation about to bounce with an enemy ten pixels above the
row of the player, and plenty of lives left. -/
def reachState : GameState :=
  { init_game 0 with
      player := { Player.init 0 with lives := 99 }
    , enemies := [Enemy.init 760 530 0] }

/-- A player bullet in flight near the top of the screen. -/
def flightBullet : Bullet := Bullet.init 400 100 (-1)

/-- Playing state whose formation step will both bounce off the right
wall and descend onto the player, while a player bullet is about to
overlap the second enemy. -/
def preemptState : GameState :=
  { init_game 0 with
      enemies := [Enemy.init 760 530 0, Enemy.init 300 400 1]
    , playerBullets := [ { rect := { x := 310, y := 418, w := 5, h := 15 }, speed_y := -6 } ] }

/-- The same tick observed right after the formation phase. -/
def preemptMid : GameState :=
  formationPhase (updatePhase (eventPhase preemptState 500 idleInput) idleInput) 500

theorem groupcollide_bullets_eq (es : List Enemy) (bs : List Bullet) :
    (groupcollide es bs).bullets =
      bs.filter fun b => !es.any fun e => collideRect e.rect b.rect := by
  induction es generalizing bs with
  | nil => simp [groupcollide]
  | cons e es ih =>
    simp only [groupcollide]
    by_cases h : (bs.filter fun b => collideRect e.rect b.rect).isEmpty = true
    · rw [if_pos h, ih]
      apply List.filter_congr
      intro b hb
      have hne : collideRect e.rect b.rect = false := by
        rw [List.isEmpty_iff] at h
        have := List.filter_eq_nil_iff.mp h b hb
        simpa using this
      simp [hne]
    · rw [if_neg h, ih, List.filter_filter]
      apply List.filter_congr
      intro b hb
      cases hc : collideRect e.rect b.rect <;> simp [hc]

theorem groupcollide_bullets_subset (es : List Enemy) (bs : List Bullet) :
    (groupcollide es bs).bullets ⊆ bs := by
  rw [groupcollide_bullets_eq]
  intro b hb
  exact (List.mem_filter.mp hb).1

theorem groupcollide_kills_le (es : List Enemy) (bs : List Bullet) :
    (groupcollide es bs).kills ≤ bs.length := by
  induction es generalizing bs with
  | nil => simp [groupcollide]
  | cons e es ih =>
    simp only [groupcollide]
    by_cases h : (bs.filter fun b => collideRect e.rect b.rect).isEmpty = true
    · rw [if_pos h]; dsimp only; exact ih bs
    · rw [if_neg h]
      dsimp only
      have hex : ∃ b ∈ bs, collideRect e.rect b.rect = true := by
        rw [List.isEmpty_iff, List.filter_eq_nil_iff] at h
        push_neg at h
        simpa using h
      have hlt : (bs.filter fun b => !collideRect e.rect b.rect).length < bs.length := by
        apply List.length_filter_lt_length_iff_exists.mpr
        obtain ⟨b, hb, hcol⟩ := hex
        exact ⟨b, hb, by simp [hcol]⟩
      have := ih (bs.filter fun b => !collideRect e.rect b.rect)
      omega

theorem groupcollide_survivors_length (es : List Enemy) (bs : List Bullet) :
    (groupcollide es bs).survivors.length + (groupcollide es bs).kills = es.length := by
  induction es generalizing bs with
  | nil => simp [groupcollide]
  | cons e es ih =>
    simp only [groupcollide]
    by_cases h : (bs.filter fun b => collideRect e.rect b.rect).isEmpty = true
    · rw [if_pos h]
      have := ih bs
      simp only [List.length_cons]
      omega
    · rw [if_neg h]
      have := ih (bs.filter fun b => !collideRect e.rect b.rect)
      simp only [List.length_cons]
      omega

theorem groupcollide_no_overlap (es : List Enemy) (bs : List Bullet) :
    ∀ e ∈ (groupcollide es bs).survivors, ∀ b ∈ (groupcollide es bs).bullets,
      collideRect e.rect b.rect = false := by
  induction es generalizing bs with
  | nil => simp [groupcollide]
  | cons e0 es ih =>
    intro e he b hb
    simp only [groupcollide] at he hb
    by_cases h : (bs.filter fun b => collideRect e0.rect b.rect).isEmpty = true
    · rw [if_pos h] at he hb
      simp only [List.mem_cons] at he
      rcases he with rfl | he
      · have hbs : b ∈ bs := groupcollide_bullets_subset es bs hb
        rw [List.isEmpty_iff] at h
        have := List.filter_eq_nil_iff.mp h b hbs
        simpa using this
      · exact ih bs e he b hb
    · rw [if_neg h] at he hb
      exact ih _ e he b hb

theorem applyHits_lives (L : Int) (ph : Phase) (al : Bool) (k : Nat) :
    (applyHits L ph al k).1 = L - k := by
  induction k generalizing L ph al with
  | zero => simp [applyHits]
  | succ k ih =>
    simp only [applyHits]
    split_ifs with h <;> rw [ih] <;> push_cast <;> ring

theorem applyHits_phase_go (L : Int) (al : Bool) (k : Nat) :
    (applyHits L Phase.game_over al k).2.1 = Phase.game_over := by
  induction k generalizing L al with
  | zero => rfl
  | succ k ih =>
    simp only [applyHits]
    split_ifs with h
    · exact ih _ _
    · exact ih _ _

theorem applyHits_phase_hit (L : Int) (ph : Phase) (al : Bool) (k : Nat)
    (hk : 1 ≤ k) (hL : L - k ≤ 0) :
    (applyHits L ph al k).2.1 = Phase.game_over := by
  induction k generalizing L ph al with
  | zero => omega
  | succ k ih =>
    simp only [applyHits]
    split_ifs with h
    · exact applyHits_phase_go _ _ _
    · have hk' : 1 ≤ k := by
        by_contra hc
        push_cast at hL
        omega
      exact ih (L - 1) ph al hk' (by push_cast at hL ⊢; omega)


/-! ### Projection lemmas for the tick phases -/

@[simp]
theorem enemyShootPhase_enemies (s : GameState) (dec : Nat → Bool) :
    (enemyShootPhase s dec).enemies = s.enemies := rfl

@[simp]
theorem enemyShootPhase_playerBullets (s : GameState) (dec : Nat → Bool) :
    (enemyShootPhase s dec).playerBullets = s.playerBullets := rfl

@[simp]
theorem enemyShootPhase_game_state (s : GameState) (dec : Nat → Bool) :
    (enemyShootPhase s dec).game_state = s.game_state := rfl

@[simp]
theorem collisionPass1_enemies (s : GameState) :
    (collisionPass1 s).enemies = (groupcollide s.enemies s.playerBullets).survivors := rfl

@[simp]
theorem collisionPass1_game_state (s : GameState) :
    (collisionPass1 s).game_state = s.game_state := rfl

@[simp]
theorem collisionPass2_enemies (s : GameState) :
    (collisionPass2 s).enemies = s.enemies := rfl

theorem collisionPass2_lives (s : GameState) :
    (collisionPass2 s).player.lives =
      s.player.lives -
        ((s.enemyBullets.filter fun b => collideRect s.player.rect b.rect).length : Int) := by
  simp only [collisionPass2]
  exact applyHits_lives _ _ _ _

theorem collisionPass2_game_state_of_go (s : GameState)
    (h : s.game_state = Phase.game_over) :
    (collisionPass2 s).game_state = Phase.game_over := by
  simp only [collisionPass2, h]
  exact applyHits_phase_go _ _ _

theorem winCheck_game_state_of_go (s : GameState)
    (h : s.game_state = Phase.game_over) :
    (winCheck s).game_state = Phase.game_over := by
  simp only [winCheck]
  split_ifs with hc
  · exact absurd (h ▸ hc.2) (by simp)
  · exact h

@[simp]
theorem winCheck_enemies (s : GameState) :
    (winCheck s).enemies = s.enemies := by
  simp only [winCheck]
  split_ifs <;> rfl

/-! ### C5: shooting is rate-limited by the 250 ms cooldown -/

/-- C5: a shoot request spawns a bullet iff strictly more than
`shoot_delay` ms elapsed since the last successful shot; on success the
timer resets to `now` and the `player_shoot` cue fires; a request during
cooldown changes nothing; a player whose cooldown is the constructed
250 ms and whose last shot was at t=0 gets no bullet at t=100 ms and a
bullet at t=260 ms. -/
theorem C5_shoot_cooldown :
    (∀ p : Player, ∀ now : Nat,
       ((p.shoot now).bullet.isSome = true ↔ now - p.last_shot_time > p.shoot_delay)) ∧
    (∀ p : Player, ∀ now : Nat, now - p.last_shot_time > p.shoot_delay →
       (p.shoot now).player = { p with last_shot_time := now } ∧
       (p.shoot now).bullet = some (Bullet.init p.rect.centerx p.rect.top (-1)) ∧
       (p.shoot now).cues = [Cue.player_shoot]) ∧
    (∀ p : Player, ∀ now : Nat, ¬ now - p.last_shot_time > p.shoot_delay →
       p.shoot now = { player := p, bullet := none, cues := [] }) ∧
    (∀ t0 : Nat, (Player.init t0).shoot_delay = 250) ∧
    (∀ p : Player, p.shoot_delay = 250 → p.last_shot_time = 0 →
       (p.shoot 100).bullet = none ∧
       ((p.shoot 100).player.shoot 260).bullet.isSome = true) := by
  refine ⟨?_, ?_, ?_, ?_, ?_⟩
  · intro p now
    simp only [Player.shoot]
    split_ifs with h <;> simp [h]
  · intro p now h
    simp [Player.shoot, h]
  · intro p now h
    simp [Player.shoot, h]
  · intro t0; rfl
  · intro p hd hl
    have h100 : ¬ (100 - p.last_shot_time > p.shoot_delay) := by omega
    constructor
    · simp [Player.shoot, h100]
    · simp [Player.shoot, h100, hd, hl]

theorem C5_shoot_cooldown_witness :
    ((Player.init 0).shoot 100).bullet = none ∧
    (((Player.init 0).shoot 100).player.shoot 260).bullet.isSome = true :=
  C5_shoot_cooldown.2.2.2.2 (Player.init 0) rfl rfl

/-! ### C10: the very first shot is also cooldown-gated -/

/-- C10: `Player.__init__` sets `last_shot_time` to the creation time,
so a freshly created player spawns a bullet iff strictly more than
250 ms passed since creation; no earlier request produces one. -/
theorem C10_first_shot_gated :
    ∀ t0 now : Nat,
      (((Player.init t0).shoot now).bullet.isSome = true ↔ t0 + 250 < now) := by
  intro t0 now
  simp only [Player.shoot, Player.init]
  split_ifs with h <;> simp_all <;> omega


/-! ### C9: restart fully re-initialises the playthrough -/

/-- C9: from a terminal screen, R makes `main_game` return and the
driver loop re-enters it, so restart re-runs the initialisation: phase
Playing, score 0, lives 3, formation direction and descent-pending at
their initial values, the full `ENEMY_ROWS × ENEMY_COLS` grid respawned
at its starting coordinates, and no bullet from the previous
playthrough. -/
theorem C9_restart_resets :
    ∀ now : Nat,
      (restart now).game_state = Phase.playing ∧
      (restart now).score = 0 ∧
      (restart now).player.lives = PLAYER_LIVES ∧
      (restart now).enemy_current_move_speed_x = ENEMY_MOVE_SPEED_X ∧
      (restart now).move_enemies_down = false ∧
      (restart now).playerBullets = [] ∧
      (restart now).enemyBullets = [] ∧
      (restart now).enemies = create_enemies ∧
      create_enemies.length = ENEMY_ROWS * ENEMY_COLS ∧
      (∀ row < ENEMY_ROWS, ∀ col < ENEMY_COLS,
        create_enemies[row * ENEMY_COLS + col]? =
          some (Enemy.init (start_x + (col : Int) * ENEMY_SPACING_X)
            (start_y + (row : Int) * ENEMY_SPACING_Y) row)) := by
  intro now
  exact ⟨rfl, rfl, rfl, rfl, rfl, rfl, rfl, rfl, by decide, by decide⟩

theorem C9_restart_resets_witness :
    (restart 7).game_state = Phase.playing ∧
    create_enemies[1 * ENEMY_COLS + 2]? =
      some (Enemy.init (start_x + ((2 : Nat) : Int) * ENEMY_SPACING_X)
        (start_y + ((1 : Nat) : Int) * ENEMY_SPACING_Y) 1) :=
  ⟨(C9_restart_resets 7).1,
   (C9_restart_resets 7).2.2.2.2.2.2.2.2.2 1 (by decide) 2 (by decide)⟩

/-! ### C1: lives under simultaneous enemy-bullet hits -/

/-- C1 counterexample: with 1 life and two enemy bullets overlapping the
player in the same tick, the hit loop decrements once per bullet and the
lives counter ends at -1 — it is not clamped at 0 at the transition into
GameOver. -/
theorem C1_counterexample :
    hitState.game_state = Phase.playing ∧
    hitState.player.lives = 1 ∧
    (tick hitState 0 idleInput noShots).player.lives = -1 ∧
    (tick hitState 0 idleInput noShots).game_state = Phase.game_over := by
  exact ⟨rfl, rfl, by decide, by decide⟩

/-- C1 (amended): each enemy-bullet overlap with the player decrements
the lives counter by exactly 1, with no clamping: with k overlapping
bullets the counter ends at its old value minus k, which is negative
when k exceeds it; the transition into GameOver still fires in that tick
whenever the result is ≤ 0. -/
theorem C1_amended_lives :
    ∀ s : GameState,
      ((collisionPass2 s).player.lives =
        s.player.lives -
          ((s.enemyBullets.filter fun b => collideRect s.player.rect b.rect).length : Int)) ∧
      (1 ≤ (s.enemyBullets.filter fun b => collideRect s.player.rect b.rect).length →
        s.player.lives -
          ((s.enemyBullets.filter fun b => collideRect s.player.rect b.rect).length : Int) ≤ 0 →
        (collisionPass2 s).game_state = Phase.game_over) := by
  intro s
  constructor
  · exact collisionPass2_lives s
  · intro hk hL
    simp only [collisionPass2]
    exact applyHits_phase_hit _ _ _ _ hk hL

theorem C1_amended_lives_witness :
    (collisionPass2 hitNowState).game_state = Phase.game_over :=
  (C1_amended_lives hitNowState).2 (by decide) (by decide)

/-! ### C2: player-bullets versus live-enemies pass -/

/-- C2: the pass destroys one enemy per counted kill, kills at most one
enemy per bullet, leaves no surviving enemy overlapping a surviving
bullet, and a single bullet overlapping two enemies destroys only the
first along with the bullet — the second survives. -/
theorem C2_groupcollide :
    (∀ es bs, (groupcollide es bs).survivors.length + (groupcollide es bs).kills = es.length) ∧
    (∀ es bs, (groupcollide es bs).kills ≤ bs.length) ∧
    (∀ es bs, ∀ e ∈ (groupcollide es bs).survivors, ∀ b ∈ (groupcollide es bs).bullets,
      collideRect e.rect b.rect = false) ∧
    (∀ (e1 e2 : Enemy) (b : Bullet),
      collideRect e1.rect b.rect = true → collideRect e2.rect b.rect = true →
      groupcollide [e1, e2] [b] = { survivors := [e2], bullets := [], kills := 1 }) := by
  refine ⟨groupcollide_survivors_length, groupcollide_kills_le, groupcollide_no_overlap, ?_⟩
  intro e1 e2 b h1 h2
  simp [groupcollide, h1, h2]

theorem C2_groupcollide_witness :
    groupcollide [e1w, e2w] [b2w] = { survivors := [e2w], bullets := [], kills := 1 } :=
  C2_groupcollide.2.2.2 e1w e2w b2w (by decide) (by decide)


/-- Unfolding of a formation step that descends. -/
theorem formationPhase_step_down (s : GameState) (now : Nat)
    (hie : s.enemies.isEmpty = false)
    (hel : now - s.last_enemy_move_time ≥ ENEMY_MOVE_INTERVAL)
    (hdown : (wallHit s || s.move_enemies_down) = true) :
    formationPhase s now =
      { s with enemies := droppedEnemies s
             , enemy_current_move_speed_x :=
                 if wallHit s then -s.enemy_current_move_speed_x
                 else s.enemy_current_move_speed_x
             , move_enemies_down := false
             , last_enemy_move_time := now
             , player := if reachedPlayer s then { s.player with lives := 0 } else s.player
             , game_state := if reachedPlayer s then Phase.game_over else s.game_state } := by
  rw [formationPhase]
  rw [if_neg (by simp [hie]), if_pos hel, if_pos hdown]

/-- Unfolding of a formation step that does not descend. -/
theorem formationPhase_step_flat (s : GameState) (now : Nat)
    (hie : s.enemies.isEmpty = false)
    (hel : now - s.last_enemy_move_time ≥ ENEMY_MOVE_INTERVAL)
    (hdown : (wallHit s || s.move_enemies_down) = false) :
    formationPhase s now =
      { s with enemies := movedEnemies s
             , enemy_current_move_speed_x :=
                 if wallHit s then -s.enemy_current_move_speed_x
                 else s.enemy_current_move_speed_x
             , last_enemy_move_time := now } := by
  rw [formationPhase]
  rw [if_neg (by simp [hie]), if_pos hel, if_neg (by simp [hdown])]

/-! ### C4: wall-bounce and descent are atomic -/

/-- C4: a formation step whose horizontal move pushes some enemy past a
side boundary flips the stored step direction exactly once and drops
every live enemy by `ENEMY_MOVE_DOWN_STEP` in that same step, leaving no
descent pending, however many enemies breached the boundary. -/
theorem C4_wall_bounce_atomic :
    ∀ (s : GameState) (now : Nat),
      s.enemies ≠ [] →
      ENEMY_MOVE_INTERVAL ≤ now - s.last_enemy_move_time →
      wallHit s = true →
      (formationPhase s now).enemies =
        (s.enemies.map fun e =>
          { e with rect :=
              { e.rect with
                  x := e.rect.x + s.enemy_current_move_speed_x
                , y := e.rect.y + ENEMY_MOVE_DOWN_STEP } }) ∧
      (formationPhase s now).enemy_current_move_speed_x =
        -s.enemy_current_move_speed_x ∧
      (formationPhase s now).move_enemies_down = false := by
  intro s now hne hel hwall
  have hie : s.enemies.isEmpty = false := by
    simpa [List.isEmpty_iff] using hne
  rw [formationPhase_step_down s now hie hel (by simp [hwall])]
  refine ⟨?_, by simp [hwall], rfl⟩
  simp only [droppedEnemies, movedEnemies, List.map_map]
  rfl

theorem C4_wall_bounce_atomic_witness :
    (formationPhase wallState 500).enemies =
      (wallState.enemies.map fun e =>
        { e with rect :=
            { e.rect with
                x := e.rect.x + wallState.enemy_current_move_speed_x
              , y := e.rect.y + ENEMY_MOVE_DOWN_STEP } }) ∧
    (formationPhase wallState 500).enemy_current_move_speed_x =
      -wallState.enemy_current_move_speed_x ∧
    (formationPhase wallState 500).move_enemies_down = false :=
  C4_wall_bounce_atomic wallState 500 (by decide) (by decide) (by decide)

/-! ### C8: descent reaching the player forces game over -/

/-- C8: whenever a formation step descends and the bottom edge of some enemy
reaches or passes the top edge of the player, that same step switches the
phase to GameOver and zeroes the lives, regardless of how many lives
remained. -/
theorem C8_descent_reaches_player :
    ∀ (s : GameState) (now : Nat),
      s.enemies ≠ [] →
      ENEMY_MOVE_INTERVAL ≤ now - s.last_enemy_move_time →
      (wallHit s || s.move_enemies_down) = true →
      reachedPlayer s = true →
      (formationPhase s now).game_state = Phase.game_over ∧
      (formationPhase s now).player.lives = 0 := by
  intro s now hne hel hdown hreach
  have hie : s.enemies.isEmpty = false := by
    simpa [List.isEmpty_iff] using hne
  simp [formationPhase, hie, hel, hdown, hreach]

theorem C8_descent_reaches_player_witness :
    (formationPhase reachState 500).game_state = Phase.game_over ∧
    (formationPhase reachState 500).player.lives = 0 :=
  C8_descent_reaches_player reachState 500 (by decide) (by decide) (by decide) (by decide)

/-! ### C7: formation stepping is interval-gated -/

/-- C7: the formation controller is inert while less than
`ENEMY_MOVE_INTERVAL` ms elapsed since its last step; once at least the
interval elapsed it performs exactly one step, moving every live enemy
by the horizontal step delta and resetting the step timer; concretely,
ten calls 1 ms apart from a fresh game change nothing and the call at
500 ms moves every enemy by 1. -/
theorem C7_formation_interval :
    (∀ (s : GameState) (now : Nat),
      now - s.last_enemy_move_time < ENEMY_MOVE_INTERVAL →
      formationPhase s now = s) ∧
    (∀ (s : GameState) (now : Nat),
      s.enemies ≠ [] →
      ENEMY_MOVE_INTERVAL ≤ now - s.last_enemy_move_time →
      ((formationPhase s now).enemies.map fun e => e.rect.x) =
        (s.enemies.map fun e => e.rect.x + s.enemy_current_move_speed_x) ∧
      (formationPhase s now).last_enemy_move_time = now) ∧
    (((List.range 10).map fun i => i + 1).foldl
        (fun st t => formationPhase st t) (init_game 0) = init_game 0) ∧
    (((formationPhase (init_game 0) 500).enemies.map fun e => e.rect.x) =
      ((init_game 0).enemies.map fun e => e.rect.x + 1)) := by
  refine ⟨?_, ?_, by decide, by decide⟩
  · intro s now h
    rw [formationPhase]
    split_ifs <;> first | rfl | omega
  · intro s now hne hel
    have hie : s.enemies.isEmpty = false := by
      simpa [List.isEmpty_iff] using hne
    by_cases hdown : (wallHit s || s.move_enemies_down) = true
    · rw [formationPhase_step_down s now hie hel hdown]
      refine ⟨?_, rfl⟩
      simp only [droppedEnemies, movedEnemies, List.map_map]
      rfl
    · rw [formationPhase_step_flat s now hie hel (by simpa using hdown)]
      refine ⟨?_, rfl⟩
      simp only [movedEnemies, List.map_map]
      rfl

theorem C7_formation_interval_witness :
    formationPhase (init_game 3) 4 = init_game 3 :=
  C7_formation_interval.1 (init_game 3) 4 (by decide)

/-! ### C6: bullet motion and removal -/

/-- Characterisation of `Bullet.update` self-removal: the bullet is
killed exactly when, after the move, its bottom is above the screen or
its top below it. -/
theorem Bullet.update_eq_none_iff (b : Bullet) :
    Bullet.update b = none ↔
      b.rect.y + b.speed_y + b.rect.h < 0 ∨
        SCREEN_HEIGHT < b.rect.y + b.speed_y := by
  simp only [Bullet.update, Rect.bottom, Rect.top]
  split_ifs with hc
  · simpa using hc
  · simpa using hc

/-- C6: a live bullet moves each tick by exactly its fixed signed
velocity and never horizontally; it self-removes iff its trailing edge
fully crossed the top (player bullets, moving up) or bottom (enemy
bullets, moving down) boundary; and in the collision passes a player
bullet is consumed iff it overlaps some live enemy, an enemy bullet iff
it overlaps the player. -/
theorem C6_bullet_motion :
    ∀ b : Bullet,
      (∀ b', Bullet.update b = some b' →
        b'.rect.y = b.rect.y + b.speed_y ∧ b'.rect.x = b.rect.x ∧
        b'.rect.w = b.rect.w ∧ b'.rect.h = b.rect.h ∧ b'.speed_y = b.speed_y) ∧
      (Bullet.update b = none ↔
        b.rect.y + b.speed_y + b.rect.h < 0 ∨
          SCREEN_HEIGHT < b.rect.y + b.speed_y) ∧
      (b.speed_y < 0 → b.rect.y + b.speed_y ≤ SCREEN_HEIGHT →
        (Bullet.update b = none ↔ b.rect.y + b.speed_y + b.rect.h < 0)) ∧
      (0 < b.speed_y → 0 ≤ b.rect.y + b.speed_y + b.rect.h →
        (Bullet.update b = none ↔ SCREEN_HEIGHT < b.rect.y + b.speed_y)) ∧
      (∀ es bs, b ∈ bs →
        (b ∈ (groupcollide es bs).bullets ↔
          ∀ e ∈ es, collideRect e.rect b.rect = false)) ∧
      (∀ s : GameState, b ∈ s.enemyBullets →
        (b ∈ (collisionPass2 s).enemyBullets ↔
          collideRect s.player.rect b.rect = false)) := by
  intro b
  refine ⟨?_, Bullet.update_eq_none_iff b, ?_, ?_, ?_, ?_⟩
  · intro b' h
    rw [Bullet.update] at h
    split_ifs at h with hc
    injection h with h
    subst h
    exact ⟨rfl, rfl, rfl, rfl, rfl⟩
  · intro hneg hup
    rw [Bullet.update_eq_none_iff]
    constructor
    · rintro (h | h)
      · exact h
      · omega
    · exact Or.inl
  · intro hpos hlow
    rw [Bullet.update_eq_none_iff]
    constructor
    · rintro (h | h)
      · omega
      · exact h
    · exact Or.inr
  · intro es bs hb
    rw [groupcollide_bullets_eq, List.mem_filter]
    simp [hb]
  · intro s hb
    simp only [collisionPass2]
    rw [List.mem_filter]
    simp [hb]

theorem C6_bullet_motion_witness :
    (Bullet.update flightBullet = none ↔
      flightBullet.rect.y + flightBullet.speed_y + flightBullet.rect.h < 0) :=
  (C6_bullet_motion flightBullet).2.2.1 (by decide) (by decide)

/-! ### C3: a descent game over does not preempt the rest of the tick -/

/-- C3 counterexample: the formation descent of this tick forces
GameOver while both enemies are still alive, yet the very same tick then
runs the collision pass, destroys one of them and scores it: checks
after the descent are not preempted, and an enemy is destroyed while the
phase is already GameOver. -/
theorem C3_counterexample :
    preemptMid.game_state = Phase.game_over ∧
    preemptMid.enemies.length = 2 ∧
    (tick preemptState 500 idleInput noShots).game_state = Phase.game_over ∧
    (tick preemptState 500 idleInput noShots).enemies.length = 1 ∧
    (tick preemptState 500 idleInput noShots).score = preemptState.score + 100 := by
  exact ⟨by decide, by decide, by decide, by decide, by decide⟩

/-- C3 (amended): a formation-descent GameOver does not stop the
remaining checks of its own tick — the player-bullet collision pass
still runs and determines the surviving enemies — but the phase stays
GameOver for the rest of the tick (the Win check is guarded by Playing),
and from the next tick on the loop body is inert. -/
theorem C3_amended_not_preemptive :
    (∀ (s : GameState) (now : Nat) (inp : Input) (dec : Nat → Bool),
      s.game_state = Phase.playing →
      (formationPhase (updatePhase (eventPhase s now inp) inp) now).game_state =
        Phase.game_over →
      (tick s now inp dec).enemies =
        (groupcollide
          (formationPhase (updatePhase (eventPhase s now inp) inp) now).enemies
          (formationPhase (updatePhase (eventPhase s now inp) inp) now).playerBullets).survivors ∧
      (tick s now inp dec).game_state = Phase.game_over) ∧
    (∀ (s : GameState) (now : Nat) (inp : Input) (dec : Nat → Bool),
      s.game_state ≠ Phase.playing → tick s now inp dec = s) := by
  constructor
  · intro s now inp dec hplay hmid
    have htick : tick s now inp dec =
        winCheck (collisionPass2 (collisionPass1 (enemyShootPhase
          (formationPhase (updatePhase (eventPhase s now inp) inp) now) dec))) := by
      rw [tick, if_pos hplay]
    constructor
    · rw [htick]
      simp
    · rw [htick]
      apply winCheck_game_state_of_go
      apply collisionPass2_game_state_of_go
      simpa using hmid
  · intro s now inp dec h
    rw [tick, if_neg h]

theorem C3_amended_not_preemptive_witness :
    (tick preemptState 500 idleInput noShots).enemies =
      (groupcollide preemptMid.enemies preemptMid.playerBullets).survivors ∧
    (tick preemptState 500 idleInput noShots).game_state = Phase.game_over :=
  C3_amended_not_preemptive.1 preemptState 500 idleInput noShots rfl (by decide)

end Space4k
